import Mathlib

/-!
Verification of the Kamui VRF coordination engine against its specification.

This file gives a shallow embedding of the coordinator state machine
(`kamui-program/src/processor.rs` and `kamui-program/src/state.rs`), the
Anchor variant of the program (`kamui-program/programs/kamui-vrf/src/lib.rs`),
the cross-chain message codec (`standalone-layerzero/src/msg_codec.rs`) and the
peer-gated receiver (`standalone-layerzero/src/instructions/lz_receive.rs`).

Machine integers are modelled as `Nat` (with explicit truncation where the
source saturates or casts), byte strings as `List Nat`, `BTreeMap` as an
association list with strictly ascending unique keys, and fallible operations
as `Except`.  The keccak-256 hash used by the program is an external primitive
(`solana_program::keccak::hash`); every definition that hashes takes the hash
function `H : Bytes -> Bytes` as an explicit parameter, so theorems about
identifier layout and randomness expansion hold for an arbitrary hash.
On Solana a failed instruction aborts the whole transaction, so an `Except`
error value models "no state change"; explicit `...Tx` wrappers make that
rollback visible where a claim speaks about unchanged state.
-/

/-- Byte strings are lists of naturals; each element denotes one byte. -/
abbrev Bytes := List Nat

/-- Little-endian byte encoding of a value, truncated to `n` bytes
(the semantics of Rust `to_le_bytes` on an `n`-byte integer). -/
def leBytes : Nat → Nat → Bytes
  | 0, _ => []
  | n + 1, v => v % 256 :: leBytes n (v / 256)

/-- Big-endian byte encoding, the semantics of Rust `to_be_bytes`. -/
def beBytes (n v : Nat) : Bytes := (leBytes n v).reverse

/-- Value of a big-endian byte string, the semantics of `from_be_bytes`. -/
def beVal (l : Bytes) : Nat := l.foldl (fun acc b => acc * 256 + b) 0

/-- Slice of a byte string: bytes `[start, start+len)`. -/
def listSlice (l : Bytes) (start len : Nat) : Bytes := (l.drop start).take len

/-- Saturating addition on 64-bit counters (`u64::saturating_add`). -/
def satAdd64 (a b : Nat) : Nat := min (a + b) (2 ^ 64 - 1)

/-- Saturating addition on 16-bit counters (`u16::saturating_add`). -/
def satAdd16 (a b : Nat) : Nat := min (a + b) (2 ^ 16 - 1)

/-- Saturating addition on 32-bit counters (`u32::saturating_add`). -/
def satAdd32 (a b : Nat) : Nat := min (a + b) (2 ^ 32 - 1)

/-- Two's-complement little-endian bytes of an `i64` timestamp
(the semantics of `i64::to_le_bytes`). -/
def i64leBytes (t : Int) : Bytes := leBytes 8 (t % (2 ^ 64)).toNat

/- Constants from `kamui-program/src/state.rs`. -/

def MINIMUM_REQUEST_CONFIRMATIONS : Nat := 1
def MAXIMUM_REQUEST_CONFIRMATIONS : Nat := 255
def MINIMUM_CALLBACK_GAS_LIMIT : Nat := 10000
def MAXIMUM_CALLBACK_GAS_LIMIT : Nat := 1000000
def MAXIMUM_RANDOM_WORDS : Nat := 100
def REQUEST_EXPIRY_SLOTS : Nat := 3 * 60 * 60

/-- Request lifecycle status (`RequestStatus` in `state.rs`). -/
inductive RequestStatus
  | Pending
  | Fulfilled
  | Cancelled
  | Expired
deriving DecidableEq, Repr

/-- Subscription record (`EnhancedSubscription` in `state.rs`). -/
structure EnhancedSubscription where
  owner : Bytes
  balance : Nat
  min_balance : Nat
  confirmations : Nat
  active_requests : Nat
  max_requests : Nat
  request_counter : Nat
  request_keys : List Bytes
  pool_ids : List Nat
deriving DecidableEq, Repr

/-- Compact request summary stored in pools (`RequestSummary` in `state.rs`). -/
structure RequestSummary where
  requester : Bytes
  seed_hash : Bytes
  timestamp : Int
  status : RequestStatus
  request_slot : Nat
  callback_gas_limit : Nat
deriving DecidableEq, Repr

/-- Request pool (`RequestPool` in `state.rs`); the `BTreeMap<u32, RequestSummary>`
is modelled as an association list with unique keys in ascending order. -/
structure RequestPool where
  subscription : Bytes
  pool_id : Nat
  request_count : Nat
  max_size : Nat
  requests : List (Nat × RequestSummary)
  last_processed_slot : Nat
deriving DecidableEq, Repr

/-- Full request record (`RandomnessRequest` in `state.rs`). -/
structure RandomnessRequest where
  subscription : Bytes
  seed : Bytes
  requester : Bytes
  callback_data : Bytes
  request_slot : Nat
  status : RequestStatus
  num_words : Nat
  callback_gas_limit : Nat
  pool_id : Nat
  request_index : Nat
  request_id : Bytes
deriving DecidableEq, Repr

/-- Stored VRF result (`VrfResult` in `state.rs`). -/
structure VrfResult where
  randomness : List Bytes
  proof : Bytes
  proof_slot : Nat
  request_id : Bytes
deriving DecidableEq, Repr

/-- Oracle record (`EnhancedOracle` in `state.rs`). -/
structure EnhancedOracle where
  authority : Bytes
  vrf_key : Bytes
  stake_amount : Nat
  reputation : Nat
  last_active : Nat
  is_active : Bool
  fulfillment_count : Nat
  failure_count : Nat
deriving DecidableEq, Repr

/-- Oracle registry (`OracleRegistry` in `state.rs`). -/
structure OracleRegistry where
  admin : Bytes
  oracle_count : Nat
  min_stake : Nat
  rotation_frequency : Nat
  last_rotation : Nat
  oracles : List Bytes
deriving DecidableEq, Repr

/-- Request-id derivation (`RequestPool::generate_request_id` in `state.rs`).
The source reads the host clock; here the observed `current_slot` and
`timestamp` are explicit arguments, and the keccak-256 hash is the
parameter `H`. -/
def generate_request_id (H : Bytes → Bytes) (seed requester subscription : Bytes)
    (pool_id request_index : Nat) (current_slot : Nat) (timestamp : Int) : Bytes :=
  H (seed ++ requester ++ subscription ++ leBytes 8 current_slot ++
    i64leBytes timestamp ++ [pool_id] ++ leBytes 4 request_index)

/-- Expiry test (`RequestPool::is_request_expired`): Nat subtraction is the
`u64::saturating_sub` of the source. -/
def is_request_expired (request_slot current_slot : Nat) : Bool :=
  decide (current_slot - request_slot > REQUEST_EXPIRY_SLOTS)

/-- Next free index (`RequestPool::next_request_index`): the highest key of the
`BTreeMap` plus one, or zero when the pool is empty.  With ascending keys, the
highest key is the last entry. -/
def next_request_index (p : RequestPool) : Nat :=
  match p.requests.getLast? with
  | none => 0
  | some e => e.1 + 1

/-- The `BTreeMap::insert` of the source, on the ascending association list. -/
def mapInsert (k : Nat) (v : RequestSummary) :
    List (Nat × RequestSummary) → List (Nat × RequestSummary)
  | [] => [(k, v)]
  | e :: rest =>
    if k < e.1 then (k, v) :: e :: rest
    else if k = e.1 then (k, v) :: rest
    else e :: mapInsert k v rest

/-- The `BTreeMap::get` of the source. -/
def mapLookup (k : Nat) : List (Nat × RequestSummary) → Option RequestSummary
  | [] => none
  | e :: rest => if e.1 = k then some e.2 else mapLookup k rest

/-- In-place status update through `BTreeMap::get_mut` (keys are unique, so
only the first entry with the key is touched). -/
def setStatus (k : Nat) (st : RequestStatus) :
    List (Nat × RequestSummary) → List (Nat × RequestSummary)
  | [] => []
  | e :: rest =>
    if e.1 = k then (e.1, { e.2 with status := st }) :: rest
    else e :: setStatus k st rest

/-- Expired-request sweep (`RequestPool::clean_expired_requests` in `state.rs`):
collect the keys of pending entries past expiry, mark each of them `Expired`,
and return how many were marked together with the updated pool. -/
def clean_expired_requests (current_slot : Nat) (p : RequestPool) :
    Nat × RequestPool :=
  let expired_keys :=
    (p.requests.filter (fun e =>
      e.2.status = RequestStatus.Pending &&
      is_request_expired e.2.request_slot current_slot)).map (fun e => e.1)
  let count := expired_keys.length
  let requests := p.requests.map (fun e =>
    if e.1 ∈ expired_keys then (e.1, { e.2 with status := RequestStatus.Expired }) else e)
  (count, { p with requests := requests })

/-- Error kinds surfaced by the native processor (`error.rs` /
`ProgramError`); only the kinds reachable from the embedded paths appear. -/
inductive VrfCoordinatorError
  | InvalidNumberOfWords
  | InvalidRequestConfirmations
  | InvalidCallbackGasLimit
  | InsufficientBalance
  | SubscriptionRequestLimitExceeded
  | InvalidPoolId
  | PoolIsFull
  | RequestIdMismatch
  | InvalidRequestParameters
  | InvalidRequestStatus
  | RequestNotFound
  | RequestExpired
  | InvalidVrfProof
  | InvalidSubscriptionOwner
  | InvalidAdmin
  | InvalidOracleAuthority
  | InvalidAccountData
  | ArithmeticOverflow
deriving DecidableEq, Repr

/-- Output of a successful `process_request_randomness`. -/
structure RequestOut where
  subscription : EnhancedSubscription
  pool : RequestPool
  request : RandomnessRequest
deriving DecidableEq, Repr

/-- The native `Processor::process_request_randomness` (processor.rs).
Account loading, PDA derivation and rent are host concerns; the embedded
state is the subscription and the pool, addressed by `subscription_key`.
The host clock values observed during the call are `current_slot` and
`timestamp`. -/
def process_request_randomness (H : Bytes → Bytes)
    (seed : Bytes) (callback_data : Bytes) (num_words : Nat)
    (minimum_confirmations : Nat) (callback_gas_limit : Nat) (pool_id : Nat)
    (requester_key subscription_key : Bytes)
    (current_slot : Nat) (timestamp : Int)
    (subscription : EnhancedSubscription) (pool : RequestPool) :
    Except VrfCoordinatorError RequestOut :=
  if num_words = 0 ∨ num_words > MAXIMUM_RANDOM_WORDS then
    .error .InvalidNumberOfWords
  else if minimum_confirmations < MINIMUM_REQUEST_CONFIRMATIONS ∨
      minimum_confirmations > MAXIMUM_REQUEST_CONFIRMATIONS then
    .error .InvalidRequestConfirmations
  else if callback_gas_limit < MINIMUM_CALLBACK_GAS_LIMIT ∨
      callback_gas_limit > MAXIMUM_CALLBACK_GAS_LIMIT then
    .error .InvalidCallbackGasLimit
  else if subscription.balance < subscription.min_balance then
    .error .InsufficientBalance
  else if subscription.active_requests ≥ subscription.max_requests then
    .error .SubscriptionRequestLimitExceeded
  else if pool_id ∉ subscription.pool_ids then
    .error .InvalidPoolId
  else if pool.subscription ≠ subscription_key ∨ pool.pool_id ≠ pool_id then
    .error .InvalidAccountData
  else if pool.request_count ≥ pool.max_size then
    .error .PoolIsFull
  else
    let request_index := next_request_index pool
    let request_id := generate_request_id H seed requester_key subscription_key
      pool_id request_index current_slot timestamp
    let request_summary : RequestSummary :=
      { requester := requester_key
        seed_hash := H seed
        timestamp := timestamp
        status := RequestStatus.Pending
        request_slot := current_slot
        callback_gas_limit := callback_gas_limit }
    let pool' := { pool with
      requests := mapInsert request_index request_summary pool.requests
      request_count := satAdd32 pool.request_count 1 }
    let request : RandomnessRequest :=
      { subscription := subscription_key
        seed := seed
        requester := requester_key
        callback_data := callback_data
        request_slot := current_slot
        status := RequestStatus.Pending
        num_words := num_words
        callback_gas_limit := callback_gas_limit
        pool_id := pool_id
        request_index := request_index
        request_id := request_id }
    if subscription.balance < subscription.min_balance then
      .error .InsufficientBalance
    else
      let subscription' := { subscription with
        balance := subscription.balance - subscription.min_balance
        active_requests := satAdd16 subscription.active_requests 1
        request_keys := subscription.request_keys ++ [request_id.take 16]
        request_counter := satAdd64 subscription.request_counter 1 }
      .ok { subscription := subscription', pool := pool', request := request }

/-- Removal of the first matching truncated request key
(`iter().position` followed by `remove` in the source). -/
def removeFirstKey (key : Bytes) : List Bytes → List Bytes
  | [] => []
  | k :: rest => if k = key then rest else k :: removeFirstKey key rest

/-- Output of a successful `process_fulfill_randomness`. -/
structure FulfillOut where
  request : RandomnessRequest
  pool : RequestPool
  subscription : EnhancedSubscription
  vrf_result : VrfResult
  callback_payload : Option Bytes
deriving DecidableEq, Repr

/-- The native `Processor::process_fulfill_randomness` (processor.rs): the
"filled" randomness path.  Proof verification is the source's placeholder
(`vrf_proof_valid = true`).  `callback_payload` is the instruction data sent
to the consumer callback when `callback_data` is non-empty: the request's
`callback_data` followed by `randomness[0]`.  An error return models the
host aborting the transaction with no state change. -/
def process_fulfill_randomness (H : Bytes → Bytes)
    (proof : Bytes) (request_id : Bytes) (pool_id request_index : Nat)
    (subscription_key : Bytes) (current_slot : Nat)
    (request : RandomnessRequest) (pool : RequestPool)
    (subscription : EnhancedSubscription) :
    Except VrfCoordinatorError FulfillOut :=
  if request.request_id ≠ request_id then
    .error .RequestIdMismatch
  else if request.pool_id ≠ pool_id ∨ request.request_index ≠ request_index then
    .error .InvalidRequestParameters
  else if request.status ≠ RequestStatus.Pending then
    .error .InvalidRequestStatus
  else if pool.subscription ≠ subscription_key ∨ pool.pool_id ≠ pool_id then
    .error .InvalidAccountData
  else
    match mapLookup request_index pool.requests with
    | none => .error .RequestNotFound
    | some request_summary =>
      if is_request_expired request_summary.request_slot current_slot then
        .error .RequestExpired
      else
        let randomness := (List.range request.num_words).map (fun i =>
          H (request_id ++ leBytes 4 i) ++ H (request_id ++ leBytes 4 i))
        let vrf_result : VrfResult :=
          { randomness := randomness
            proof := proof
            proof_slot := current_slot
            request_id := request_id }
        let request' := { request with status := RequestStatus.Fulfilled }
        let pool' := { pool with
          requests := setStatus request_index RequestStatus.Fulfilled pool.requests }
        let subscription' := { subscription with
          active_requests := subscription.active_requests - 1
          request_keys := removeFirstKey (request_id.take 16) subscription.request_keys }
        let callback_payload :=
          if request.callback_data = [] then none
          else some (request.callback_data ++ randomness.getD 0 [])
        .ok { request := request', pool := pool', subscription := subscription',
              vrf_result := vrf_result, callback_payload := callback_payload }

/-- Output of a successful `process_cancel_request`. -/
structure CancelOut where
  request : RandomnessRequest
  pool : RequestPool
  subscription : EnhancedSubscription
deriving DecidableEq, Repr

/-- The native `Processor::process_cancel_request` (processor.rs, the
pool-aware variant at the end of the file). -/
def process_cancel_request
    (owner_key : Bytes) (request_id : Bytes) (pool_id request_index : Nat)
    (request : RandomnessRequest) (pool : RequestPool)
    (subscription : EnhancedSubscription) :
    Except VrfCoordinatorError CancelOut :=
  if request.request_id ≠ request_id ∨ request.pool_id ≠ pool_id ∨
      request.request_index ≠ request_index then
    .error .InvalidRequestParameters
  else if request.status ≠ RequestStatus.Pending then
    .error .InvalidRequestStatus
  else if subscription.owner ≠ owner_key then
    .error .InvalidSubscriptionOwner
  else if mapLookup request_index pool.requests = none then
    .error .RequestNotFound
  else if subscription.balance + subscription.min_balance ≥ 2 ^ 64 then
    .error .ArithmeticOverflow
  else
    let request' := { request with status := RequestStatus.Cancelled }
    let pool' := { pool with
      requests := setStatus request_index RequestStatus.Cancelled pool.requests }
    let subscription' := { subscription with
      active_requests := subscription.active_requests - 1
      balance := subscription.balance + subscription.min_balance
      request_keys := removeFirstKey (request_id.take 16) subscription.request_keys }
    .ok { request := request', pool := pool', subscription := subscription' }

/-- Output of `process_clean_expired_requests`. -/
structure CleanOut where
  pool : RequestPool
  subscription : EnhancedSubscription
  expired_count : Nat
deriving DecidableEq, Repr

/-- The native `Processor::process_clean_expired_requests` (processor.rs):
sweeps the pool and, only when something was marked, decrements the
subscription's `active_requests` by the count (the `request_keys` entries
are left behind, as the source's TODO notes). -/
def process_clean_expired_requests
    (pool_id : Nat) (subscription_key : Bytes) (current_slot : Nat)
    (pool : RequestPool) (subscription : EnhancedSubscription) :
    Except VrfCoordinatorError CleanOut :=
  if pool.pool_id ≠ pool_id then
    .error .InvalidPoolId
  else if pool.subscription ≠ subscription_key then
    .error .InvalidAccountData
  else
    let swept := clean_expired_requests current_slot pool
    if swept.1 > 0 then
      let subscription' := { subscription with
        active_requests := subscription.active_requests - swept.1 }
      .ok { pool := swept.2, subscription := subscription', expired_count := swept.1 }
    else
      .ok { pool := pool, subscription := subscription, expired_count := 0 }

/-- The native `Processor::process_fund_subscription` (processor.rs):
adds `amount` with a checked `u64` addition. -/
def process_fund_subscription (amount : Nat)
    (subscription : EnhancedSubscription) :
    Except VrfCoordinatorError EnhancedSubscription :=
  if subscription.balance + amount ≥ 2 ^ 64 then
    .error .ArithmeticOverflow
  else
    .ok { subscription with balance := subscription.balance + amount }

/-- The native `Processor::process_update_oracle_reputation` (processor.rs):
admin-gated; adds the counts with saturating `u64` additions, recomputes the
success rate with integer division, casts it to `u16` (truncation mod 2^16)
and caps at 10000; stamps `last_active` with the current slot. -/
def process_update_oracle_reputation
    (signer_key : Bytes) (oracle_authority : Bytes)
    (successful_fulfillments failed_fulfillments : Nat)
    (registry : OracleRegistry) (oracle : EnhancedOracle)
    (current_slot : Nat) :
    Except VrfCoordinatorError EnhancedOracle :=
  if signer_key ≠ registry.admin then
    .error .InvalidAdmin
  else if oracle.authority ≠ oracle_authority then
    .error .InvalidOracleAuthority
  else
    let fc := satAdd64 oracle.fulfillment_count successful_fulfillments
    let flc := satAdd64 oracle.failure_count failed_fulfillments
    let total := satAdd64 fc flc
    let success_rate := if total > 0 then fc * 100 / total else 0
    .ok { oracle with
      fulfillment_count := fc
      failure_count := flc
      reputation := min (success_rate % 2 ^ 16) 10000
      last_active := current_slot }

/- ------------------------------------------------------------------ -/
/- Anchor program variant: kamui-program/programs/kamui-vrf/src/lib.rs -/
/- ------------------------------------------------------------------ -/

/-- Error kinds of the Anchor program (`KamuiVrfError` in its `errors.rs`);
only the kinds reachable from the embedded paths appear. -/
inductive KamuiVrfError
  | InvalidConfirmations
  | InvalidWordCount
  | InvalidGasLimit
  | InvalidPoolSubscription
  | InvalidPoolId
  | TooManyRequests
  | InsufficientFunds
  | PoolCapacityExceeded
  | InvalidRequestId
  | InvalidRequestIndex
  | RequestNotPending
  | InsufficientStake
  | ArithmeticOverflow
deriving DecidableEq, Repr

/-- Pool entry of the Anchor program (`RequestEntry`): the Anchor pool keeps a
vector of entries instead of a map. -/
structure RequestEntry where
  index : Nat
  data : RequestSummary
deriving DecidableEq, Repr

/-- Request pool of the Anchor program (its `RequestPool`). -/
structure AnchorRequestPool where
  subscription : Bytes
  pool_id : Nat
  request_count : Nat
  max_size : Nat
  request_entries : List RequestEntry
  last_processed_slot : Nat
deriving DecidableEq, Repr

/-- Status update through the Anchor `RequestPool::find_request_mut`
(the first entry with the index). -/
def anchorSetStatus (idx : Nat) (st : RequestStatus) :
    List RequestEntry → List RequestEntry
  | [] => []
  | e :: rest =>
    if e.index = idx then { e with data := { e.data with status := st } } :: rest
    else e :: anchorSetStatus idx st rest

/-- Input state of the Anchor `fulfill_randomness`: the request, pool and
subscription accounts (the `vrf_result` account is freshly initialised by
the instruction and appears only in the output). -/
structure AnchorFulfillIn where
  request : RandomnessRequest
  pool : AnchorRequestPool
  subscription : EnhancedSubscription
deriving DecidableEq, Repr

/-- Output state of the Anchor `fulfill_randomness`. -/
structure AnchorFulfillOut where
  request : RandomnessRequest
  pool : AnchorRequestPool
  subscription : EnhancedSubscription
  vrf_result : VrfResult
deriving DecidableEq, Repr

/-- The Anchor `kamui_vrf::fulfill_randomness` (lib.rs lines 286-339).
Oracle gating and proof verification are the source's stated omissions.
The stored result's `randomness` is the empty vector on this path.  The
removal predicate mirrors the source exactly: a stored 16-byte key is
zero-extended to 32 bytes and kept unless that equals the request id. -/
def fulfill_randomness (proof : Bytes) (request_id : Bytes)
    (pool_id request_index : Nat) (current_slot : Nat)
    (st : AnchorFulfillIn) : Except KamuiVrfError AnchorFulfillOut :=
  if st.request.request_id ≠ request_id then
    .error .InvalidRequestId
  else if st.request.pool_id ≠ pool_id then
    .error .InvalidPoolId
  else if st.request.request_index ≠ request_index then
    .error .InvalidRequestIndex
  else if st.request.status ≠ RequestStatus.Pending then
    .error .RequestNotPending
  else
    let request := { st.request with status := RequestStatus.Fulfilled }
    let pool := { st.pool with
      request_entries :=
        anchorSetStatus request_index RequestStatus.Fulfilled st.pool.request_entries }
    let vrf_result : VrfResult :=
      { randomness := []
        proof := proof
        proof_slot := current_slot
        request_id := request_id }
    let subscription := { st.subscription with
      active_requests := st.subscription.active_requests - 1
      request_keys := st.subscription.request_keys.filter (fun id =>
        id ++ List.replicate 16 0 ≠ request_id) }
    .ok { request := request, pool := pool, subscription := subscription,
          vrf_result := vrf_result }

/-- Transaction wrapper for the Anchor `fulfill_randomness`: on Solana an
instruction error aborts the transaction, so the pre-state is kept and no
`VrfResult` account is created. -/
def fulfill_randomness_tx (proof : Bytes) (request_id : Bytes)
    (pool_id request_index : Nat) (current_slot : Nat)
    (st : AnchorFulfillIn) :
    AnchorFulfillIn × Option VrfResult × Option KamuiVrfError :=
  match fulfill_randomness proof request_id pool_id request_index current_slot st with
  | .ok out =>
    ({ request := out.request, pool := out.pool, subscription := out.subscription },
     some out.vrf_result, none)
  | .error e => (st, none, some e)

/- ------------------------------------------------------------- -/
/- Message codec: standalone-layerzero/src/msg_codec.rs           -/
/- ------------------------------------------------------------- -/

/-- Message tag (`MessageType`); the wire values are
VrfRequest = 0, VrfFulfillment = 1, any other tag is Generic. -/
inductive MessageType
  | VrfRequest
  | VrfFulfillment
  | Generic
deriving DecidableEq, Repr

/-- Wire value of a `MessageType` (`as u8` in the source). -/
def MessageType.toByte : MessageType → Nat
  | .VrfRequest => 0
  | .VrfFulfillment => 1
  | .Generic => 2

/-- The fixed-size EVM-compatible VRF request payload (`VrfRequestPayload`):
`requester`, `seed` and `callback_data` are 32 bytes each, `num_words` a
`u32`, `pool_id` a `u8`. -/
structure VrfRequestPayload where
  msg_type : MessageType
  requester : Bytes
  seed : Bytes
  callback_data : Bytes
  num_words : Nat
  pool_id : Nat
deriving DecidableEq, Repr

/-- The fixed-size EVM-compatible VRF fulfillment payload
(`VrfFulfillmentPayload`): a 32-byte request id and 64 bytes of randomness. -/
structure VrfFulfillmentPayload where
  msg_type : MessageType
  request_id : Bytes
  randomness : Bytes
deriving DecidableEq, Repr

/-- Codec error kinds (`MsgCodecError`). -/
inductive MsgCodecError
  | InvalidLength
  | BodyTooShort
  | InvalidUtf8
deriving DecidableEq, Repr

/-- `MessageCodec::encode_vrf_request`: tag 0x00, then requester, seed,
callback data, big-endian `num_words`, pool id. -/
def encode_vrf_request (payload : VrfRequestPayload) : Bytes :=
  [MessageType.VrfRequest.toByte] ++ payload.requester ++ payload.seed ++
    payload.callback_data ++ beBytes 4 payload.num_words ++ [payload.pool_id]

/-- `MessageCodec::encode_vrf_fulfillment`: tag 0x01, request id, randomness. -/
def encode_vrf_fulfillment (payload : VrfFulfillmentPayload) : Bytes :=
  [MessageType.VrfFulfillment.toByte] ++ payload.request_id ++ payload.randomness

/-- `MessageCodec::decode_message_type`. -/
def decode_message_type (message : Bytes) : Except MsgCodecError MessageType :=
  match message with
  | [] => .error .InvalidLength
  | b :: _ =>
    if b = 0 then .ok MessageType.VrfRequest
    else if b = 1 then .ok MessageType.VrfFulfillment
    else .ok MessageType.Generic

/-- `MessageCodec::decode_vrf_request`: requires at least 102 bytes and reads
the fixed-offset fields; the decoded payload is always tagged `VrfRequest`. -/
def decode_vrf_request (message : Bytes) : Except MsgCodecError VrfRequestPayload :=
  if message.length < 102 then .error .InvalidLength
  else .ok
    { msg_type := MessageType.VrfRequest
      requester := listSlice message 1 32
      seed := listSlice message 33 32
      callback_data := listSlice message 65 32
      num_words := beVal (listSlice message 97 4)
      pool_id := message.getD 101 0 }

/-- `MessageCodec::decode_vrf_fulfillment`: requires at least 97 bytes. -/
def decode_vrf_fulfillment (message : Bytes) :
    Except MsgCodecError VrfFulfillmentPayload :=
  if message.length < 97 then .error .InvalidLength
  else .ok
    { msg_type := MessageType.VrfFulfillment
      request_id := listSlice message 1 32
      randomness := listSlice message 33 64 }

/-- Generic string codec header parsing (`decode_string_len`): the length is
the big-endian `u32` in the last 4 bytes of the 32-byte header. -/
def decode_string_len (buf : Bytes) : Except MsgCodecError Nat :=
  if buf.length < 32 then .error .InvalidLength
  else .ok (beVal (listSlice buf 28 4))

/-- Byte-list to `ByteArray` conversion for UTF-8 validation. -/
def bytesToByteArray (l : Bytes) : ByteArray :=
  ⟨⟨l.map (fun b => UInt8.ofNat b)⟩⟩

/-- Generic string codec `decode`: reads the declared length, bounds-checks
the buffer and validates UTF-8. -/
def decodeGenericString (message : Bytes) : Except MsgCodecError String :=
  match decode_string_len message with
  | .error e => .error e
  | .ok string_len =>
    if 32 + string_len > message.length then .error .BodyTooShort
    else
      match String.fromUTF8? (bytesToByteArray (listSlice message 32 string_len)) with
      | some s => .ok s
      | none => .error .InvalidUtf8

/- ------------------------------------------------------------------- -/
/- Peer-gated receiver: standalone-layerzero/src/instructions/lz_receive.rs -/
/- ------------------------------------------------------------------- -/

/-- Error kinds of the receiver (`LayerZeroError`); only the kinds reachable
from the embedded path appear. -/
inductive LayerZeroError
  | InvalidSender
  | InvalidRequester
  | TooManyPendingRequests
  | InvalidMessageFormat
deriving DecidableEq, Repr

/-- A VRF request record kept in the OApp store (the `VrfRequest` written by
`lz_receive`). -/
structure VrfRequest where
  request_id : Bytes
  requester : Bytes
  seed : Bytes
  num_words : Nat
  pool_id : Nat
  callback_data : Bytes
  timestamp : Int
  fulfilled : Bool
deriving DecidableEq, Repr

/-- VRF portion of the OApp store (`store.vrf_data`). -/
structure VrfData where
  pending_requests : List VrfRequest
deriving DecidableEq, Repr

/-- The OApp store account (`Store`): the fields touched by `lz_receive`. -/
structure Store where
  string : String
  vrf_data : VrfData
deriving DecidableEq, Repr

/-- Parameters of an inbound message (`LzReceiveParams`). -/
structure LzReceiveParams where
  src_eid : Nat
  sender : Bytes
  nonce : Nat
  guid : Bytes
  message : Bytes
deriving DecidableEq, Repr

/-- Marking the first unfulfilled request with a matching id as fulfilled
(the fulfillment loop with its `break`). -/
def markFulfilled (request_id : Bytes) : List VrfRequest → List VrfRequest
  | [] => []
  | r :: rest =>
    if r.request_id = request_id ∧ r.fulfilled = false then
      { r with fulfilled := true } :: rest
    else r :: markFulfilled request_id rest

/-- The body of `lz_receive::handler` after the replay-protection `clear`
(an external transport primitive, out of the embedded core): decode the
message type and dispatch.  `now_ts` is the host clock timestamp. -/
def lz_receive_handler (store : Store) (params : LzReceiveParams)
    (now_ts : Int) : Except LayerZeroError Store :=
  match decode_message_type params.message with
  | .ok MessageType.VrfRequest =>
    match decode_vrf_request params.message with
    | .ok vrf_request =>
      let vrf_req : VrfRequest :=
        { request_id := params.guid
          requester := vrf_request.requester
          seed := vrf_request.seed
          num_words := vrf_request.num_words
          pool_id := vrf_request.pool_id
          callback_data := vrf_request.callback_data
          timestamp := now_ts
          fulfilled := false }
      if store.vrf_data.pending_requests.length < 100 then
        .ok { store with vrf_data :=
          { pending_requests := store.vrf_data.pending_requests ++ [vrf_req] } }
      else
        .error .TooManyPendingRequests
    | .error _ => .error .InvalidMessageFormat
  | .ok MessageType.VrfFulfillment =>
    match decode_vrf_fulfillment params.message with
    | .ok vrf_fulfillment =>
      .ok { store with vrf_data :=
        { pending_requests :=
            markFulfilled vrf_fulfillment.request_id store.vrf_data.pending_requests } }
    | .error _ => .error .InvalidMessageFormat
  | _ =>
    match decodeGenericString params.message with
    | .ok string_value => .ok { store with string := string_value }
    | .error _ => .error .InvalidMessageFormat

/-- The full `lz_receive` instruction: the Anchor account constraint
`params.sender == peer.peer_address` (the peer config resolved for
`params.src_eid`) gates the handler; a mismatch rejects the instruction with
`InvalidSender` before anything runs. -/
def lz_receive (peer_address : Bytes) (store : Store)
    (params : LzReceiveParams) (now_ts : Int) : Except LayerZeroError Store :=
  if params.sender = peer_address then
    lz_receive_handler store params now_ts
  else
    .error .InvalidSender

/-- Transaction wrapper for `lz_receive`: an error leaves the store exactly
as it was. -/
def lz_receive_tx (peer_address : Bytes) (store : Store)
    (params : LzReceiveParams) (now_ts : Int) :
    Store × Option LayerZeroError :=
  match lz_receive peer_address store params now_ts with
  | .ok store' => (store', none)
  | .error e => (store, some e)

/- ------------------------------------------------------------- -/
/- Concrete scenario data (spec section 8, E1..E6)                -/
/- ------------------------------------------------------------- -/

/-- A concrete stand-in for the external keccak-256 primitive, used to
evaluate the embedded operations on closed inputs. -/
def Hzero : Bytes → Bytes := fun _ => List.replicate 32 0

/-- E1 seed `[0x01; 32]`. -/
def e1seed : Bytes := List.replicate 32 1

/-- E1 callback data `[0x00; 32]`. -/
def e1cbd : Bytes := List.replicate 32 0

/-- E1 requester key. -/
def e1rq : Bytes := List.replicate 32 9

/-- E1 subscription account key. -/
def e1sk : Bytes := List.replicate 32 7

/-- E1 subscription as created: `min_balance = 1000000`, `confirmations = 1`,
`max_requests = 10`, all counters zero. -/
def e1sub0 : EnhancedSubscription :=
  { owner := e1rq, balance := 0, min_balance := 1000000, confirmations := 1,
    active_requests := 0, max_requests := 10, request_counter := 0,
    request_keys := [], pool_ids := [1] }

/-- E1 subscription after funding with 5000000. -/
def e1sub : EnhancedSubscription := { e1sub0 with balance := 5000000 }

/-- E1 pool `(pool_id = 1, max_size = 10)`. -/
def e1pool : RequestPool :=
  { subscription := e1sk, pool_id := 1, request_count := 0, max_size := 10,
    requests := [], last_processed_slot := 0 }

/-- The summary created by the E1 request (under `Hzero`, at slot 1000,
timestamp 111). -/
def e1summary : RequestSummary :=
  { requester := e1rq, seed_hash := List.replicate 32 0, timestamp := 111,
    status := RequestStatus.Pending, request_slot := 1000, callback_gas_limit := 100000 }

/-- The full request record created by the E1 request. -/
def e1req : RandomnessRequest :=
  { subscription := e1sk, seed := e1seed, requester := e1rq, callback_data := e1cbd,
    request_slot := 1000, status := RequestStatus.Pending, num_words := 1,
    callback_gas_limit := 100000, pool_id := 1, request_index := 0,
    request_id := List.replicate 32 0 }

/-- E1 post-request subscription: balance 4000000, one active request. -/
def e1outsub : EnhancedSubscription :=
  { e1sub with
    balance := 4000000
    active_requests := 1
    request_counter := 1
    request_keys := [List.replicate 16 0] }

/-- E1 post-request pool. -/
def e1outpool : RequestPool :=
  { e1pool with
    request_count := 1
    requests := [(0, e1summary)] }

/-- E1 post-request coordinator output. -/
def e1out : RequestOut :=
  { subscription := e1outsub, pool := e1outpool, request := e1req }

/-- Output of fulfilling the E1 request at slot 1001 with an 80-byte proof. -/
def e2out : FulfillOut :=
  { request := { e1req with status := RequestStatus.Fulfilled }
    pool := { e1outpool with requests := [(0, { e1summary with status := RequestStatus.Fulfilled })] }
    subscription := { e1outsub with active_requests := 0, request_keys := [] }
    vrf_result :=
      { randomness := [List.replicate 64 0]
        proof := List.replicate 80 3
        proof_slot := 1001
        request_id := List.replicate 32 0 }
    callback_payload := some (List.replicate 32 0 ++ List.replicate 64 0) }

/-- Output of cancelling the E1 request instead. -/
def e3out : CancelOut :=
  { request := { e1req with status := RequestStatus.Cancelled }
    pool := { e1outpool with requests := [(0, { e1summary with status := RequestStatus.Cancelled })] }
    subscription := { e1outsub with active_requests := 0, balance := 5000000, request_keys := [] } }

/-- A pending request whose id has a non-zero byte among positions 16..31
(any keccak output has this with overwhelming probability). -/
def req5 : RandomnessRequest :=
  { e1req with callback_data := [], request_id := List.replicate 32 1 }

/-- Anchor-style pool holding the single entry for `req5`. -/
def pool5 : AnchorRequestPool :=
  { subscription := e1sk, pool_id := 1, request_count := 1, max_size := 10,
    request_entries := [{ index := 0, data := e1summary }], last_processed_slot := 0 }

/-- Subscription tracking `req5`: one active request, one fingerprint. -/
def sub5 : EnhancedSubscription := { e1outsub with request_keys := [List.replicate 16 1] }

/-- Result of the Anchor `fulfill_randomness` on `req5`: the active count
drops to zero but the fingerprint survives the `retain`. -/
def out5 : AnchorFulfillOut :=
  { request := { req5 with status := RequestStatus.Fulfilled }
    pool := { pool5 with request_entries := [{ index := 0, data := { e1summary with status := RequestStatus.Fulfilled } }] }
    subscription := { sub5 with active_requests := 0 }
    vrf_result :=
      { randomness := []
        proof := List.replicate 80 3
        proof_slot := 1001
        request_id := List.replicate 32 1 } }

/-- E6 registry with admin `[1]`. -/
def reg6 : OracleRegistry :=
  { admin := [1], oracle_count := 1, min_stake := 100, rotation_frequency := 500,
    last_rotation := 0, oracles := [[2]] }

/-- E6 freshly registered oracle: zero counters, zero reputation. -/
def orc6 : EnhancedOracle :=
  { authority := [2], vrf_key := List.replicate 32 4, stake_amount := 101,
    reputation := 0, last_active := 0, is_active := true,
    fulfillment_count := 0, failure_count := 0 }

/-- E6 oracle after `update_reputation(successes = 9, failures = 1)`. -/
def orc6a : EnhancedOracle :=
  { orc6 with
    fulfillment_count := 9
    failure_count := 1
    reputation := 90
    last_active := 77 }

/-- E6 oracle after a further `update_reputation(successes = 0, failures = 9)`. -/
def orc6b : EnhancedOracle :=
  { orc6a with
    failure_count := 10
    reputation := 47
    last_active := 78 }

/-- E4 request payload. -/
def e4payload : VrfRequestPayload :=
  { msg_type := MessageType.VrfRequest, requester := List.replicate 32 17,
    seed := List.replicate 32 34, callback_data := List.replicate 32 51,
    num_words := 7, pool_id := 5 }

/-- A fulfillment payload used to exercise the 97-byte round trip. -/
def f4payload : VrfFulfillmentPayload :=
  { msg_type := MessageType.VrfFulfillment, request_id := List.replicate 32 6,
    randomness := List.replicate 64 12 }

/-- A request payload carrying the `Generic` tag in its `msg_type` field. -/
def pgen : VrfRequestPayload :=
  { msg_type := MessageType.Generic, requester := List.replicate 32 0,
    seed := List.replicate 32 0, callback_data := List.replicate 32 0,
    num_words := 0, pool_id := 0 }

/-- E5 peer address `[0x11; 32]` configured for `src_eid = 40161`. -/
def peer7 : Bytes := List.replicate 32 17

/-- E5 store before the message. -/
def store7 : Store := { string := "", vrf_data := { pending_requests := [] } }

/-- E5 inbound parameters whose sender differs from the peer in the last
byte (`0x11 XOR 0x01 = 0x10`). -/
def params7 : LzReceiveParams :=
  { src_eid := 40161, sender := List.replicate 31 17 ++ [16], nonce := 1,
    guid := List.replicate 32 8, message := encode_vrf_request e4payload }

/-- E2-style pool for the expiry sweep: at slot 20000, entry 0 is pending and
stale, entry 1 already fulfilled, entry 2 pending but fresh. -/
def pool8 : RequestPool :=
  { subscription := e1sk, pool_id := 1, request_count := 3, max_size := 10,
    requests := [(0, e1summary),
                 (1, { e1summary with status := RequestStatus.Fulfilled }),
                 (2, { e1summary with request_slot := 19000 })],
    last_processed_slot := 0 }

/-- A fulfilled (terminal) request state presented to the Anchor
`fulfill_randomness` a second time. -/
def st1 : AnchorFulfillIn :=
  { request := { e1req with status := RequestStatus.Fulfilled }, pool := pool5,
    subscription := sub5 }

/- ------------------------------------------------------------- -/
/- Theorems                                                       -/
/- ------------------------------------------------------------- -/

/-- C1: a `fulfill_randomness` call on a request whose status is any
non-`Pending` terminal status fails with the `RequestNotPending` error kind;
the transaction aborts, so the request, its pool summary, the subscription
are unchanged and no `VrfResult` is stored. -/
theorem C1_second_fulfill_rejected
    (proofBytes request_id : Bytes) (pool_id request_index current_slot : Nat)
    (st : AnchorFulfillIn)
    (hid : st.request.request_id = request_id)
    (hpid : st.request.pool_id = pool_id)
    (hidx : st.request.request_index = request_index)
    (hst : st.request.status ≠ RequestStatus.Pending) :
    fulfill_randomness_tx proofBytes request_id pool_id request_index current_slot st =
      (st, none, some KamuiVrfError.RequestNotPending) := by
  simp [fulfill_randomness_tx, fulfill_randomness, hid, hpid, hidx, hst]

/-- C1 witness: replaying the fulfilled E1-style request with the same proof
leaves the state untouched and reports `RequestNotPending`. -/
theorem C1_second_fulfill_rejected_witness :
    st1.request.status ≠ RequestStatus.Pending ∧
    fulfill_randomness_tx (List.replicate 80 3) (List.replicate 32 0) 1 0 1001 st1 =
      (st1, none, some KamuiVrfError.RequestNotPending) :=
  ⟨by decide,
   C1_second_fulfill_rejected (List.replicate 80 3) (List.replicate 32 0) 1 0 1001 st1
     (by rfl) (by rfl) (by rfl) (by decide)⟩

/-- C7: `lz_receive` admits a message only from the configured peer of the
source endpoint; any sender that differs from that peer address (in at least
one bit, hence as a 32-byte value) is rejected with `InvalidSender` and the
store is left exactly as it was. -/
theorem C7_peer_gating
    (peer_address : Bytes) (store : Store) (params : LzReceiveParams) (now_ts : Int)
    (hne : params.sender ≠ peer_address) :
    lz_receive_tx peer_address store params now_ts =
      (store, some LayerZeroError.InvalidSender) := by
  simp [lz_receive_tx, lz_receive, hne]

/-- C7 witness: flipping one bit of the configured peer address makes the
E5-style receive fail with `InvalidSender` and store nothing. -/
theorem C7_peer_gating_witness :
    params7.sender ≠ peer7 ∧
    lz_receive_tx peer7 store7 params7 0 = (store7, some LayerZeroError.InvalidSender) :=
  ⟨by decide, C7_peer_gating peer7 store7 params7 0 (by decide)⟩

/-- C5 (code bug): the Anchor `fulfill_randomness` decrements
`active_requests` but its `retain` compares each stored 16-byte fingerprint,
zero-extended to 32 bytes, against the full request id, so the fingerprint
of any request id with a non-zero byte in positions 16..31 is never removed:
after fulfilling `req5` the subscription has `active_requests = 0` and still
one stored request key, violating `active_requests == |request_keys|`. -/
theorem C5_fingerprint_not_removed :
    fulfill_randomness (List.replicate 80 3) (List.replicate 32 1) 1 0 1001
      { request := req5, pool := pool5, subscription := sub5 } = .ok out5 ∧
    out5.subscription.active_requests = 0 ∧
    out5.subscription.request_keys.length = 1 := by
  refine ⟨by rfl, by decide, by decide⟩

/-- C6 counterexample: a freshly registered oracle updated with
`(successes = 9, failures = 1)` ends with reputation 90, not the 9000 the
claim expects (the code computes `100 * 9 / 10 = 90`). -/
theorem C6_reputation_counterexample :
    process_update_oracle_reputation [1] [2] 9 1 reg6 orc6 77 = .ok orc6a ∧
    orc6a.reputation = 90 ∧ orc6a.reputation ≠ 9000 := by
  refine ⟨by rfl, by decide, by decide⟩

/-- C6 (amended): `update_reputation` is admin-only, adds the given successes
and failures to the counters, and sets
`reputation = min(10000, 100 * fulfillment_count / (fulfillment_count + failure_count))`
with integer division; on the E6 inputs this yields 90 after `(9, 1)` (not
9000) and 47 after a further `(0, 9)`. -/
theorem C6_reputation_update
    (signer signer2 oracle_authority : Bytes) (s f : Nat)
    (registry : OracleRegistry) (oracle : EnhancedOracle) (current_slot : Nat)
    (out : EnhancedOracle)
    (hadm : signer = registry.admin)
    (hauth : oracle.authority = oracle_authority)
    (hfin : oracle.fulfillment_count + s + (oracle.failure_count + f) < 2 ^ 64)
    (hpos : 0 < oracle.fulfillment_count + s + (oracle.failure_count + f))
    (hok : process_update_oracle_reputation signer oracle_authority s f registry
      oracle current_slot = .ok out)
    (hbad : signer2 ≠ registry.admin) :
    out.fulfillment_count = oracle.fulfillment_count + s ∧
    out.failure_count = oracle.failure_count + f ∧
    out.reputation = min 10000 (100 * (oracle.fulfillment_count + s) /
      (oracle.fulfillment_count + s + (oracle.failure_count + f))) ∧
    out.last_active = current_slot ∧
    process_update_oracle_reputation signer2 oracle_authority s f registry
      oracle current_slot = .error VrfCoordinatorError.InvalidAdmin := by
  have hfc : satAdd64 oracle.fulfillment_count s = oracle.fulfillment_count + s := by
    unfold satAdd64; omega
  have hflc : satAdd64 oracle.failure_count f = oracle.failure_count + f := by
    unfold satAdd64; omega
  have htot : satAdd64 (oracle.fulfillment_count + s) (oracle.failure_count + f) =
      oracle.fulfillment_count + s + (oracle.failure_count + f) := by
    unfold satAdd64; omega
  unfold process_update_oracle_reputation at hok
  rw [if_neg (by simp [hadm])] at hok
  rw [if_neg (by simp [hauth])] at hok
  simp only [hfc, hflc] at hok
  simp only [htot, hpos, if_true, gt_iff_lt, Except.ok.injEq] at hok
  have hle : (oracle.fulfillment_count + s) * 100 /
      (oracle.fulfillment_count + s + (oracle.failure_count + f)) ≤ 100 := by
    have h1 : (oracle.fulfillment_count + s) * 100 ≤
        (oracle.fulfillment_count + s + (oracle.failure_count + f)) * 100 :=
      Nat.mul_le_mul_right _ (by omega)
    calc (oracle.fulfillment_count + s) * 100 /
          (oracle.fulfillment_count + s + (oracle.failure_count + f))
        ≤ (oracle.fulfillment_count + s + (oracle.failure_count + f)) * 100 /
          (oracle.fulfillment_count + s + (oracle.failure_count + f)) :=
          Nat.div_le_div_right h1
      _ = 100 := Nat.mul_div_cancel_left 100 hpos
  obtain rfl : _ = out := hok
  refine ⟨rfl, rfl, ?_, rfl, ?_⟩
  · show min ((oracle.fulfillment_count + s) * 100 /
        (oracle.fulfillment_count + s + (oracle.failure_count + f)) % 2 ^ 16) 10000 = _
    rw [Nat.mod_eq_of_lt (lt_of_le_of_lt hle (by norm_num)), Nat.min_comm,
      Nat.mul_comm (oracle.fulfillment_count + s) 100]
  · unfold process_update_oracle_reputation
    rw [if_pos hbad]

/-- C6 witness: the E6 chain under the code's arithmetic — reputation 90
after `(9, 1)`, 47 after a further `(0, 9)`, and a non-admin signer is
rejected with `InvalidAdmin`. -/
theorem C6_reputation_update_witness :
    process_update_oracle_reputation [1] [2] 9 1 reg6 orc6 77 = .ok orc6a ∧
    process_update_oracle_reputation [1] [2] 0 9 reg6 orc6a 78 = .ok orc6b ∧
    orc6a.reputation = 90 ∧ orc6b.reputation = 47 ∧
    process_update_oracle_reputation [3] [2] 9 1 reg6 orc6 77 =
      .error VrfCoordinatorError.InvalidAdmin := by
  refine ⟨by rfl, by rfl, ?_, ?_, ?_⟩
  · have h := C6_reputation_update [1] [3] [2] 9 1 reg6 orc6 77 orc6a
      (by rfl) (by rfl) (by decide) (by decide) (by rfl) (by decide)
    exact h.2.2.1.trans (by decide)
  · have h := C6_reputation_update [1] [3] [2] 0 9 reg6 orc6a 78 orc6b
      (by rfl) (by rfl) (by decide) (by decide) (by rfl) (by decide)
    exact h.2.2.1.trans (by decide)
  · exact (C6_reputation_update [1] [3] [2] 9 1 reg6 orc6 77 orc6a
      (by rfl) (by rfl) (by decide) (by decide) (by rfl) (by decide)).2.2.2.2

/-- C4: every successful `request_randomness` deducts `min_balance` from the
subscription balance, increments `active_requests` by one, appends the
16-byte truncated fingerprint of the new request id to `request_keys`, and
increments `request_counter`; the new request takes the pool's next index. -/
theorem C4_request_effects
    (H : Bytes → Bytes) (seed callback_data : Bytes)
    (num_words minimum_confirmations callback_gas_limit pool_id : Nat)
    (requester_key subscription_key : Bytes) (current_slot : Nat) (timestamp : Int)
    (subscription : EnhancedSubscription) (pool : RequestPool) (out : RequestOut)
    (hmaxreq : subscription.max_requests < 2 ^ 16)
    (hctr : subscription.request_counter < 2 ^ 64 - 1)
    (hok : process_request_randomness H seed callback_data num_words
      minimum_confirmations callback_gas_limit pool_id requester_key
      subscription_key current_slot timestamp subscription pool = .ok out) :
    out.subscription.balance = subscription.balance - subscription.min_balance ∧
    subscription.min_balance ≤ subscription.balance ∧
    out.subscription.active_requests = subscription.active_requests + 1 ∧
    out.subscription.request_keys =
      subscription.request_keys ++ [out.request.request_id.take 16] ∧
    out.subscription.request_counter = subscription.request_counter + 1 ∧
    out.request.request_index = next_request_index pool := by
  unfold process_request_randomness at hok
  split_ifs at hok with h1 h2 h3 h4 h5 h6 h7 h8
  simp only [Except.ok.injEq] at hok
  obtain rfl : _ = out := hok
  clear h1 h2 h3 h6 h7 h8
  refine ⟨rfl, by omega, ?_, rfl, ?_, rfl⟩
  · show satAdd16 subscription.active_requests 1 = _
    unfold satAdd16
    omega
  · show satAdd64 subscription.request_counter 1 = _
    unfold satAdd64
    omega

/-- C4 witness: the E1 scenario — fund with 5000000, then one request with
`min_balance = 1000000`: the post-state has balance 4000000, one active
request, request index 0, counter 1. -/
theorem C4_request_effects_witness :
    process_fund_subscription 5000000 e1sub0 = .ok e1sub ∧
    process_request_randomness Hzero e1seed e1cbd 1 1 100000 1 e1rq e1sk 1000 111
      e1sub e1pool = .ok e1out ∧
    e1out.subscription.balance = 4000000 ∧
    e1out.subscription.active_requests = 1 ∧
    e1out.request.request_index = 0 ∧
    e1out.subscription.request_counter = 1 := by
  obtain ⟨hb, -, ha, -, hc, hi⟩ := C4_request_effects Hzero e1seed e1cbd 1 1 100000 1
    e1rq e1sk 1000 111 e1sub e1pool e1out (by decide) (by decide) (by rfl)
  exact ⟨by rfl, by rfl, hb.trans (by decide), ha.trans (by decide),
    hi.trans (by decide), hc.trans (by decide)⟩

/-- C9: the stored `request_id` of every request created by
`request_randomness` is the hash of
`seed(32) ++ requester(32) ++ subscription(32) ++ slot_le(8) ++
timestamp_le(8) ++ pool_id(1) ++ request_index_le(4)`, with the host clock
values observed at creation, and the request records that slot. -/
theorem C9_request_id_derivation
    (H : Bytes → Bytes) (seed callback_data : Bytes)
    (num_words minimum_confirmations callback_gas_limit pool_id : Nat)
    (requester_key subscription_key : Bytes) (current_slot : Nat) (timestamp : Int)
    (subscription : EnhancedSubscription) (pool : RequestPool) (out : RequestOut)
    (hok : process_request_randomness H seed callback_data num_words
      minimum_confirmations callback_gas_limit pool_id requester_key
      subscription_key current_slot timestamp subscription pool = .ok out) :
    out.request.request_id = H (seed ++ requester_key ++ subscription_key ++
      leBytes 8 current_slot ++ i64leBytes timestamp ++ [pool_id] ++
      leBytes 4 out.request.request_index) ∧
    out.request.request_slot = current_slot := by
  unfold process_request_randomness at hok
  split_ifs at hok with h1 h2 h3 h4 h5 h6 h7 h8
  simp only [Except.ok.injEq] at hok
  obtain rfl : _ = out := hok
  exact ⟨rfl, rfl⟩

/-- C9 witness: on the E1 inputs with the concrete hash `Hzero`, the stored
request id is `Hzero` of the 117-byte preimage, here the all-zero word. -/
theorem C9_request_id_derivation_witness :
    process_request_randomness Hzero e1seed e1cbd 1 1 100000 1 e1rq e1sk 1000 111
      e1sub e1pool = .ok e1out ∧
    e1out.request.request_id = List.replicate 32 0 ∧
    e1out.request.request_slot = 1000 := by
  obtain ⟨hid, hslot⟩ := C9_request_id_derivation Hzero e1seed e1cbd 1 1 100000 1
    e1rq e1sk 1000 111 e1sub e1pool e1out (by rfl)
  exact ⟨by rfl, hid.trans (by decide), hslot⟩

/-- Element lookup in a mapped range. -/
theorem getD_map_range (f : Nat → Bytes) (n i : Nat) (h : i < n) :
    ((List.range n).map f).getD i [] = f i := by
  rw [List.getD_eq_getElem?_getD, List.getElem?_map, List.getElem?_range h]
  rfl

/-- Shape of one expanded randomness word: the 32-byte hash of
`request_id ++ i_le(4)` duplicated into equal halves of a 64-byte word. -/
theorem expansion_word_spec (H : Bytes → Bytes) (request_id : Bytes) (n i : Nat)
    (hH : ∀ b, (H b).length = 32) (hi : i < n) :
    ((List.range n).map (fun j =>
        H (request_id ++ leBytes 4 j) ++ H (request_id ++ leBytes 4 j))).getD i [] =
      H (request_id ++ leBytes 4 i) ++ H (request_id ++ leBytes 4 i) ∧
    (((List.range n).map (fun j =>
        H (request_id ++ leBytes 4 j) ++ H (request_id ++ leBytes 4 j))).getD i []).length = 64 ∧
    listSlice (((List.range n).map (fun j =>
        H (request_id ++ leBytes 4 j) ++ H (request_id ++ leBytes 4 j))).getD i []) 0 32 =
      H (request_id ++ leBytes 4 i) ∧
    listSlice (((List.range n).map (fun j =>
        H (request_id ++ leBytes 4 j) ++ H (request_id ++ leBytes 4 j))).getD i []) 32 32 =
      H (request_id ++ leBytes 4 i) := by
  have hw := hH (request_id ++ leBytes 4 i)
  have hgd : ((List.range n).map (fun j =>
      H (request_id ++ leBytes 4 j) ++ H (request_id ++ leBytes 4 j))).getD i [] =
      H (request_id ++ leBytes 4 i) ++ H (request_id ++ leBytes 4 i) :=
    getD_map_range _ _ _ hi
  refine ⟨hgd, ?_, ?_, ?_⟩
  · rw [hgd]
    simp [hw]
  · rw [hgd]
    show (H (request_id ++ leBytes 4 i) ++ H (request_id ++ leBytes 4 i)).take 32 = _
    exact List.take_left' hw
  · rw [hgd]
    show ((H (request_id ++ leBytes 4 i) ++ H (request_id ++ leBytes 4 i)).drop 32).take 32 = _
    rw [List.drop_left' hw, ← hw, List.take_length]

/-- C2: a successful `process_fulfill_randomness` (the filled path) stores
exactly `num_words` randomness words; word `i` is
`H(request_id ++ i_le(4))` duplicated to 64 bytes (equal 32-byte halves),
and the consumer callback, when configured, receives `callback_data`
followed by `randomness[0]`.  The request transitions to `Fulfilled`. -/
theorem C2_randomness_expansion
    (H : Bytes → Bytes) (proofBytes request_id : Bytes)
    (pool_id request_index : Nat) (subscription_key : Bytes) (current_slot : Nat)
    (request : RandomnessRequest) (pool : RequestPool)
    (subscription : EnhancedSubscription) (out : FulfillOut)
    (hH : ∀ b, (H b).length = 32)
    (hok : process_fulfill_randomness H proofBytes request_id pool_id request_index
      subscription_key current_slot request pool subscription = .ok out) :
    out.vrf_result.randomness.length = request.num_words ∧
    (∀ i, i < request.num_words →
      out.vrf_result.randomness.getD i [] =
        H (request_id ++ leBytes 4 i) ++ H (request_id ++ leBytes 4 i) ∧
      (out.vrf_result.randomness.getD i []).length = 64 ∧
      listSlice (out.vrf_result.randomness.getD i []) 0 32 =
        H (request_id ++ leBytes 4 i) ∧
      listSlice (out.vrf_result.randomness.getD i []) 32 32 =
        H (request_id ++ leBytes 4 i)) ∧
    (request.callback_data ≠ [] →
      out.callback_payload =
        some (request.callback_data ++ out.vrf_result.randomness.getD 0 [])) ∧
    out.request.status = RequestStatus.Fulfilled := by
  unfold process_fulfill_randomness at hok
  split_ifs at hok with h1 h2 h3 h4 hcb0
  · split at hok
    · exact absurd hok (by simp)
    · split_ifs at hok with h5
      simp only [Except.ok.injEq] at hok
      obtain rfl : _ = out := hok
      exact ⟨by simp, fun i hi => expansion_word_spec H request_id _ i hH hi,
        fun hcb => absurd hcb0 hcb, rfl⟩
  · split at hok
    · exact absurd hok (by simp)
    · split_ifs at hok with h5
      simp only [Except.ok.injEq] at hok
      obtain rfl : _ = out := hok
      exact ⟨by simp, fun i hi => expansion_word_spec H request_id _ i hH hi,
        fun hcb => rfl, rfl⟩

/-- C2 witness: fulfilling the E1 request (one word) under `Hzero` stores one
64-byte word — the 32-byte hash duplicated — and passes it to the callback
after the 32 bytes of callback data. -/
theorem C2_randomness_expansion_witness :
    process_fulfill_randomness Hzero (List.replicate 80 3) (List.replicate 32 0) 1 0
      e1sk 1001 e1req e1outpool e1outsub = .ok e2out ∧
    e2out.vrf_result.randomness.length = 1 ∧
    e2out.vrf_result.randomness.getD 0 [] = List.replicate 64 0 ∧
    e2out.callback_payload =
      some (e1req.callback_data ++ e2out.vrf_result.randomness.getD 0 []) := by
  have h := C2_randomness_expansion Hzero (List.replicate 80 3) (List.replicate 32 0)
    1 0 e1sk 1001 e1req e1outpool e1outsub e2out
    (fun b => List.length_replicate 32 0) (by rfl)
  exact ⟨by rfl, h.1.trans (by decide), (h.2.1 0 (by decide)).1.trans (by decide),
    h.2.2.1 (by decide)⟩

/-- Length of a little-endian encoding. -/
theorem leBytes_length (n v : Nat) : (leBytes n v).length = n := by
  induction n generalizing v with
  | zero => rfl
  | succ n ih => simp [leBytes, ih]

/-- Length of a big-endian encoding. -/
theorem beBytes_length (n v : Nat) : (beBytes n v).length = n := by
  simp [beBytes, leBytes_length]

/-- A 4-byte big-endian encoding decodes to the original `u32` value. -/
theorem beVal_beBytes4 (v : Nat) (h : v < 2 ^ 32) : beVal (beBytes 4 v) = v := by
  simp [beBytes, leBytes, beVal]
  omega

/-- Dropping past an appended prefix. -/
theorem drop_append_add (a r : Bytes) (m : Nat) :
    (a ++ r).drop (a.length + m) = r.drop m := by
  induction a with
  | nil => simp
  | cons x t ih => simp [Nat.succ_add, ih]

/-- Indexing past an appended prefix. -/
theorem getD_append_add (a r : Bytes) (n m d : Nat) (h : a.length = n) :
    (a ++ r).getD (n + m) d = r.getD m d := by
  subst h
  induction a with
  | nil => simp
  | cons x t ih => simpa [Nat.succ_add] using ih

/-- Slicing past an appended prefix. -/
theorem slice_append_add (a r : Bytes) (n m len : Nat) (h : a.length = n) :
    listSlice (a ++ r) (n + m) len = listSlice r m len := by
  subst h
  simp [listSlice, drop_append_add]

/-- A slice at offset zero covering exactly an appended prefix. -/
theorem slice_prefix_exact (a r : Bytes) (n : Nat) (h : a.length = n) :
    listSlice (a ++ r) 0 n = a := by
  simp [listSlice, List.take_left' h]

/-- A slice at offset zero covering the whole list. -/
theorem slice_self (l : Bytes) (n : Nat) (h : l.length = n) :
    listSlice l 0 n = l := by
  subst h
  simp [listSlice]

/-- C3 (amended): for every `VrfRequestPayload` whose `msg_type` is
`VrfRequest`, `encode_vrf_request` produces exactly 102 bytes laid out as
`tag 0x00(1) ++ requester(32) ++ seed(32) ++ callback_data(32) ++
num_words_be(4) ++ pool_id(1)` and `decode_vrf_request` returns the original
payload; a `VrfFulfillmentPayload` whose `msg_type` is `VrfFulfillment`
round-trips through exactly 97 bytes; and the E4 input encodes to the
expected 102-byte buffer. (The field-width hypotheses restate the Rust
types `[u8; 32]`, `u32`, `[u8; 64]`.) -/
theorem C3_codec_roundtrip (p : VrfRequestPayload) (q : VrfFulfillmentPayload)
    (hpr : p.requester.length = 32) (hps : p.seed.length = 32)
    (hpc : p.callback_data.length = 32) (hpw : p.num_words < 2 ^ 32)
    (hpt : p.msg_type = MessageType.VrfRequest)
    (hqr : q.request_id.length = 32) (hqn : q.randomness.length = 64)
    (hqt : q.msg_type = MessageType.VrfFulfillment) :
    (encode_vrf_request p).length = 102 ∧
    encode_vrf_request p =
      [0] ++ p.requester ++ p.seed ++ p.callback_data ++
        beBytes 4 p.num_words ++ [p.pool_id] ∧
    decode_vrf_request (encode_vrf_request p) = .ok p ∧
    (encode_vrf_fulfillment q).length = 97 ∧
    encode_vrf_fulfillment q = [1] ++ q.request_id ++ q.randomness ∧
    decode_vrf_fulfillment (encode_vrf_fulfillment q) = .ok q ∧
    encode_vrf_request e4payload =
      [0] ++ List.replicate 32 17 ++ List.replicate 32 34 ++
        List.replicate 32 51 ++ [0, 0, 0, 7] ++ [5] := by
  obtain ⟨mt, a, b, c, nw, pid⟩ := p
  obtain ⟨mt2, rid, rnd⟩ := q
  simp only at hpr hps hpc hpw hpt hqr hqn hqt
  subst hpt
  subst hqt
  have hw : (beBytes 4 nw).length = 4 := beBytes_length 4 nw
  have henc : encode_vrf_request ⟨MessageType.VrfRequest, a, b, c, nw, pid⟩ =
      [0] ++ (a ++ (b ++ (c ++ (beBytes 4 nw ++ [pid])))) := by
    simp [encode_vrf_request, MessageType.toByte, List.append_assoc]
  have hlen : (encode_vrf_request ⟨MessageType.VrfRequest, a, b, c, nw, pid⟩).length = 102 := by
    rw [henc]
    simp [hpr, hps, hpc, hw]
  have henc2 : encode_vrf_fulfillment ⟨MessageType.VrfFulfillment, rid, rnd⟩ =
      [1] ++ (rid ++ rnd) := by
    simp [encode_vrf_fulfillment, MessageType.toByte, List.append_assoc]
  have hlen2 : (encode_vrf_fulfillment ⟨MessageType.VrfFulfillment, rid, rnd⟩).length = 97 := by
    rw [henc2]
    simp [hqr, hqn]
  refine ⟨hlen, by rw [henc]; simp [List.append_assoc], ?_, hlen2,
    by rw [henc2]; simp [List.append_assoc], ?_, by decide⟩
  · have e1 : listSlice (encode_vrf_request ⟨MessageType.VrfRequest, a, b, c, nw, pid⟩) 1 32 = a := by
      rw [henc]
      exact (slice_append_add [0] _ 1 0 32 rfl).trans (slice_prefix_exact a _ 32 hpr)
    have e33 : listSlice (encode_vrf_request ⟨MessageType.VrfRequest, a, b, c, nw, pid⟩) 33 32 = b := by
      rw [henc]
      exact ((slice_append_add [0] _ 1 32 32 rfl).trans
        (slice_append_add a _ 32 0 32 hpr)).trans (slice_prefix_exact b _ 32 hps)
    have e65 : listSlice (encode_vrf_request ⟨MessageType.VrfRequest, a, b, c, nw, pid⟩) 65 32 = c := by
      rw [henc]
      exact (((slice_append_add [0] _ 1 64 32 rfl).trans
        (slice_append_add a _ 32 32 32 hpr)).trans
        (slice_append_add b _ 32 0 32 hps)).trans (slice_prefix_exact c _ 32 hpc)
    have e97 : listSlice (encode_vrf_request ⟨MessageType.VrfRequest, a, b, c, nw, pid⟩) 97 4 =
        beBytes 4 nw := by
      rw [henc]
      exact ((((slice_append_add [0] _ 1 96 4 rfl).trans
        (slice_append_add a _ 32 64 4 hpr)).trans
        (slice_append_add b _ 32 32 4 hps)).trans
        (slice_append_add c _ 32 0 4 hpc)).trans (slice_prefix_exact _ _ 4 hw)
    have e101 : (encode_vrf_request ⟨MessageType.VrfRequest, a, b, c, nw, pid⟩).getD 101 0 = pid := by
      rw [henc]
      exact ((((getD_append_add [0] _ 1 100 0 rfl).trans
        (getD_append_add a _ 32 68 0 hpr)).trans
        (getD_append_add b _ 32 36 0 hps)).trans
        (getD_append_add c _ 32 4 0 hpc)).trans
        ((getD_append_add (beBytes 4 nw) _ 4 0 0 hw).trans (by simp [List.getD]))
    unfold decode_vrf_request
    rw [if_neg (by rw [hlen]; omega)]
    rw [e1, e33, e65, e97, e101, beVal_beBytes4 nw hpw]
  · have f1 : listSlice (encode_vrf_fulfillment ⟨MessageType.VrfFulfillment, rid, rnd⟩) 1 32 = rid := by
      rw [henc2]
      exact (slice_append_add [1] _ 1 0 32 rfl).trans (slice_prefix_exact rid _ 32 hqr)
    have f33 : listSlice (encode_vrf_fulfillment ⟨MessageType.VrfFulfillment, rid, rnd⟩) 33 64 = rnd := by
      rw [henc2]
      exact ((slice_append_add [1] _ 1 32 64 rfl).trans
        (slice_append_add rid rnd 32 0 64 hqr)).trans (slice_self rnd 64 hqn)
    unfold decode_vrf_fulfillment
    rw [if_neg (by rw [hlen2]; omega)]
    rw [f1, f33]

/-- C3 counterexample: the claim quantifies over every `VrfRequestPayload`,
but a payload tagged `Generic` in its `msg_type` field does not round-trip —
the encoder always writes tag `0x00` and the decoder always returns
`msg_type = VrfRequest`. -/
theorem C3_codec_roundtrip_counterexample :
    decode_vrf_request (encode_vrf_request pgen) ≠ .ok pgen := by
  intro h
  have h2 := Except.ok.inj h
  exact absurd (congrArg VrfRequestPayload.msg_type h2) (by decide)

/-- C3 witness: the E4 request payload and a concrete fulfillment payload
round-trip through 102 and 97 bytes respectively. -/
theorem C3_codec_roundtrip_witness :
    (encode_vrf_request e4payload).length = 102 ∧
    decode_vrf_request (encode_vrf_request e4payload) = .ok e4payload ∧
    (encode_vrf_fulfillment f4payload).length = 97 ∧
    decode_vrf_fulfillment (encode_vrf_fulfillment f4payload) = .ok f4payload := by
  have h := C3_codec_roundtrip e4payload f4payload (by decide) (by decide) (by decide)
    (by decide) (by decide) (by decide) (by decide) (by decide)
  exact ⟨h.1, h.2.2.1, h.2.2.2.1, h.2.2.2.2.2.1⟩

/-- Entries of a key-unique association list are determined by their key. -/
theorem pair_eq_of_nodup_keys (l : List (Nat × RequestSummary))
    (hnd : (l.map Prod.fst).Nodup) (u e : Nat × RequestSummary)
    (hu : u ∈ l) (he : e ∈ l) (hk : u.1 = e.1) : u = e := by
  induction l with
  | nil => cases hu
  | cons x t ih =>
    rw [List.map_cons, List.nodup_cons] at hnd
    obtain ⟨hx, hnd'⟩ := hnd
    rcases List.mem_cons.mp hu with rfl | hu'
    · rcases List.mem_cons.mp he with rfl | he'
      · rfl
      · exact absurd (hk ▸ List.mem_map_of_mem Prod.fst he') hx
    · rcases List.mem_cons.mp he with rfl | he'
      · exact absurd (hk ▸ List.mem_map_of_mem Prod.fst hu') hx
      · exact ih hnd' hu' he'

/-- With unique keys, the sweep marks exactly the pending entries past
expiry, pointwise. -/
theorem clean_char (current_slot : Nat) (pool : RequestPool)
    (hnd : (pool.requests.map Prod.fst).Nodup) :
    (clean_expired_requests current_slot pool).2.requests =
      pool.requests.map (fun e =>
        if e.2.status = RequestStatus.Pending ∧
            current_slot - e.2.request_slot > REQUEST_EXPIRY_SLOTS then
          (e.1, { e.2 with status := RequestStatus.Expired })
        else e) := by
  show pool.requests.map _ = _
  refine List.map_congr_left ?_
  intro e he
  by_cases hpe : e.2.status = RequestStatus.Pending ∧
      current_slot - e.2.request_slot > REQUEST_EXPIRY_SLOTS
  · rw [if_pos hpe, if_pos]
    refine List.mem_map_of_mem Prod.fst ?_
    rw [List.mem_filter]
    exact ⟨he, by simp [is_request_expired, hpe.1, hpe.2]⟩
  · rw [if_neg hpe, if_neg]
    intro hmem
    obtain ⟨u, hu, huk⟩ := List.mem_map.mp hmem
    rw [List.mem_filter] at hu
    obtain ⟨hul, hup⟩ := hu
    obtain rfl : u = e := pair_eq_of_nodup_keys pool.requests hnd u e hul he huk
    simp [is_request_expired] at hup
    exact hpe hup

/-- A second sweep at the same slot marks nothing and changes nothing. -/
theorem clean_idem (current_slot : Nat) (pool : RequestPool) :
    clean_expired_requests current_slot ((clean_expired_requests current_slot pool).2) =
      (0, (clean_expired_requests current_slot pool).2) := by
  have hnil : ((clean_expired_requests current_slot pool).2.requests.filter (fun e =>
      e.2.status = RequestStatus.Pending &&
      is_request_expired e.2.request_slot current_slot)) = [] := by
    rw [List.filter_eq_nil_iff]
    intro x hx
    show ¬(x.2.status = RequestStatus.Pending && is_request_expired x.2.request_slot current_slot) = true
    have hx' : x ∈ pool.requests.map (fun e =>
        if e.1 ∈ ((pool.requests.filter (fun e =>
            e.2.status = RequestStatus.Pending &&
            is_request_expired e.2.request_slot current_slot)).map Prod.fst) then
          (e.1, { e.2 with status := RequestStatus.Expired })
        else e) := hx
    obtain ⟨e, he, rfl⟩ := List.mem_map.mp hx'
    by_cases hk : e.1 ∈ ((pool.requests.filter (fun e =>
        e.2.status = RequestStatus.Pending &&
        is_request_expired e.2.request_slot current_slot)).map Prod.fst)
    · rw [if_pos hk]
      simp
    · rw [if_neg hk]
      intro hpred
      refine hk (List.mem_map_of_mem Prod.fst ?_)
      rw [List.mem_filter]
      exact ⟨he, hpred⟩
  set P := (clean_expired_requests current_slot pool).2 with hP
  unfold clean_expired_requests
  rw [hnil]
  simp

/-- C8: `clean_expired` marks exactly the pool entries that are `Pending`
and satisfy `current_slot - request_slot > 3*60*60` as `Expired`, returns
the number transitioned, leaves the other pool fields alone, and is
idempotent: an immediate second call at the same slot returns zero and
changes nothing. -/
theorem C8_clean_expired_sweep (current_slot : Nat) (pool : RequestPool)
    (hnd : (pool.requests.map Prod.fst).Nodup) :
    (clean_expired_requests current_slot pool).2.requests =
      pool.requests.map (fun e =>
        if e.2.status = RequestStatus.Pending ∧
            current_slot - e.2.request_slot > REQUEST_EXPIRY_SLOTS then
          (e.1, { e.2 with status := RequestStatus.Expired })
        else e) ∧
    (clean_expired_requests current_slot pool).1 =
      (pool.requests.filter (fun e =>
        e.2.status = RequestStatus.Pending &&
        is_request_expired e.2.request_slot current_slot)).length ∧
    (clean_expired_requests current_slot pool).2.request_count = pool.request_count ∧
    (clean_expired_requests current_slot pool).2.max_size = pool.max_size ∧
    clean_expired_requests current_slot ((clean_expired_requests current_slot pool).2) =
      (0, (clean_expired_requests current_slot pool).2) := by
  exact ⟨clean_char current_slot pool hnd, by simp [clean_expired_requests],
    rfl, rfl, clean_idem current_slot pool⟩

/-- C8 witness: at slot 20000 the E2-style pool has one stale pending entry;
the sweep expires exactly it, returns 1, and a second sweep returns 0 and
changes nothing. -/
theorem C8_clean_expired_sweep_witness :
    (pool8.requests.map Prod.fst).Nodup ∧
    (clean_expired_requests 20000 pool8).1 = 1 ∧
    (clean_expired_requests 20000 pool8).2.requests =
      [(0, { e1summary with status := RequestStatus.Expired }),
       (1, { e1summary with status := RequestStatus.Fulfilled }),
       (2, { e1summary with request_slot := 19000 })] ∧
    clean_expired_requests 20000 ((clean_expired_requests 20000 pool8).2) =
      (0, (clean_expired_requests 20000 pool8).2) := by
  have h := C8_clean_expired_sweep 20000 pool8 (by decide)
  exact ⟨by decide, h.2.1.trans (by decide), h.1.trans (by decide), h.2.2.2.2⟩

/-- Every key of an ascending pool is below the next free index. -/
theorem key_lt_next (p : RequestPool)
    (hasc : List.Pairwise (fun a b => a < b) (p.requests.map Prod.fst)) :
    ∀ e ∈ p.requests, e.1 < next_request_index p := by
  obtain ⟨sub, pid, rc, ms, l, lps⟩ := p
  show ∀ e ∈ l, e.1 < next_request_index ⟨sub, pid, rc, ms, l, lps⟩
  unfold next_request_index
  simp only
  induction l with
  | nil => intro e he; cases he
  | cons x t ih =>
    intro e he
    cases t with
    | nil =>
      have hex : e = x := by simpa using he
      subst hex
      simp [List.getLast?]
    | cons y t2 =>
      rw [List.map_cons, List.pairwise_cons] at hasc
      obtain ⟨hx, hasc'⟩ := hasc
      rw [List.getLast?_cons_cons]
      rcases List.mem_cons.mp he with rfl | he'
      · obtain ⟨u, hu⟩ : ∃ u, (y :: t2).getLast? = some u :=
          ⟨_, List.getLast?_eq_getLast_of_ne_nil (by simp)⟩
        rw [hu]
        have humem : u ∈ y :: t2 := by
          rw [List.getLast?_eq_getLast_of_ne_nil (l := y :: t2) (by simp)] at hu
          have h2 := Option.some.inj hu
          rw [← h2]
          exact List.getLast_mem (by simp)
        have hlt : e.1 < u.1 := hx u.1 (List.mem_map_of_mem Prod.fst humem)
        show e.1 < u.1 + 1
        omega
      · exact ih hasc' e he'

/-- Inserting at a key above every existing key appends at the end. -/
theorem mapInsert_append (k : Nat) (v : RequestSummary)
    (l : List (Nat × RequestSummary)) (h : ∀ e ∈ l, e.1 < k) :
    mapInsert k v l = l ++ [(k, v)] := by
  induction l with
  | nil => rfl
  | cons x t ih =>
    have hx : x.1 < k := h x (by simp)
    unfold mapInsert
    rw [if_neg (by omega), if_neg (by omega)]
    rw [ih (fun e he => h e (by simp [he]))]
    rfl

/-- A status update never changes the key sequence of the pool. -/
theorem setStatus_keys (k : Nat) (st : RequestStatus)
    (l : List (Nat × RequestSummary)) :
    (setStatus k st l).map Prod.fst = l.map Prod.fst := by
  induction l with
  | nil => rfl
  | cons x t ih =>
    unfold setStatus
    by_cases hx : x.1 = k
    · rw [if_pos hx]
      simp
    · rw [if_neg hx]
      simp [ih]

/-- The expiry sweep never changes the key sequence of the pool. -/
theorem clean_keys (current_slot : Nat) (pool : RequestPool) :
    (clean_expired_requests current_slot pool).2.requests.map Prod.fst =
      pool.requests.map Prod.fst := by
  show (pool.requests.map _).map Prod.fst = _
  rw [List.map_map]
  refine List.map_congr_left ?_
  intro e he
  simp only [Function.comp_apply]
  split
  · rfl
  · rfl

set_option maxHeartbeats 1600000 in
/-- C10: `request_count` is monotone across the coordinator operations:
`request_randomness` increments it by one and appends a single new index
(bounded by `max_size`), while `fulfill_randomness`, `cancel_request` and
`clean_expired` leave the count and the key sequence of the pool unchanged
— entries are never removed, so `max_size` bounds the total number of
requests ever admitted. -/
theorem C10_pool_monotone
    (H : Bytes → Bytes) (seed callback_data : Bytes)
    (num_words minimum_confirmations callback_gas_limit pool_id : Nat)
    (requester_key subscription_key : Bytes) (current_slot : Nat) (timestamp : Int)
    (subscription : EnhancedSubscription) (pool : RequestPool) (o1 : RequestOut)
    (hasc : List.Pairwise (fun a b => a < b) (pool.requests.map Prod.fst))
    (hms : pool.max_size < 2 ^ 32)
    (hok1 : process_request_randomness H seed callback_data num_words
      minimum_confirmations callback_gas_limit pool_id requester_key
      subscription_key current_slot timestamp subscription pool = .ok o1)
    (proofBytes request_id2 : Bytes) (pool_id2 request_index2 : Nat)
    (subscription_key2 : Bytes) (slot2 : Nat) (request2 : RandomnessRequest)
    (pool2 : RequestPool) (subscription2 : EnhancedSubscription) (o2 : FulfillOut)
    (hok2 : process_fulfill_randomness H proofBytes request_id2 pool_id2
      request_index2 subscription_key2 slot2 request2 pool2 subscription2 = .ok o2)
    (owner3 request_id3 : Bytes) (pool_id3 request_index3 : Nat)
    (request3 : RandomnessRequest) (pool3 : RequestPool)
    (subscription3 : EnhancedSubscription) (o3 : CancelOut)
    (hok3 : process_cancel_request owner3 request_id3 pool_id3 request_index3
      request3 pool3 subscription3 = .ok o3)
    (slot4 : Nat) (pool4 : RequestPool) :
    o1.pool.request_count = pool.request_count + 1 ∧
    o1.pool.request_count ≤ pool.max_size ∧
    o1.pool.requests.map Prod.fst =
      pool.requests.map Prod.fst ++ [next_request_index pool] ∧
    o2.pool.request_count = pool2.request_count ∧
    o2.pool.requests.map Prod.fst = pool2.requests.map Prod.fst ∧
    o3.pool.request_count = pool3.request_count ∧
    o3.pool.requests.map Prod.fst = pool3.requests.map Prod.fst ∧
    (clean_expired_requests slot4 pool4).2.request_count = pool4.request_count ∧
    (clean_expired_requests slot4 pool4).2.requests.map Prod.fst =
      pool4.requests.map Prod.fst := by
  have hins := mapInsert_append (next_request_index pool)
    { requester := requester_key, seed_hash := H seed, timestamp := timestamp,
      status := RequestStatus.Pending, request_slot := current_slot,
      callback_gas_limit := callback_gas_limit }
    pool.requests (key_lt_next pool hasc)
  unfold process_request_randomness at hok1
  split_ifs at hok1 with h1 h2 h3 h4 h5 h6 h7 h8
  simp only [Except.ok.injEq] at hok1
  obtain rfl : _ = o1 := hok1
  clear h1 h2 h3 h4 h5 h6 h7
  have hcount : satAdd32 pool.request_count 1 = pool.request_count + 1 := by
    unfold satAdd32
    omega
  have hbound : pool.request_count + 1 ≤ pool.max_size := by omega
  have hkeys1 : (mapInsert (next_request_index pool)
      { requester := requester_key, seed_hash := H seed, timestamp := timestamp,
        status := RequestStatus.Pending, request_slot := current_slot,
        callback_gas_limit := callback_gas_limit } pool.requests).map Prod.fst =
      pool.requests.map Prod.fst ++ [next_request_index pool] := by
    rw [hins]
    simp
  unfold process_cancel_request at hok3
  split_ifs at hok3 with c1 c2 c3 c4 c5
  simp only [Except.ok.injEq] at hok3
  obtain rfl : _ = o3 := hok3
  unfold process_fulfill_randomness at hok2
  split_ifs at hok2 with f1 f2 f3 f4 fcb
  all_goals
    (split at hok2
     · exact absurd hok2 (by simp)
     · split_ifs at hok2 with f5
       simp only [Except.ok.injEq] at hok2
       obtain rfl : _ = o2 := hok2
       exact ⟨hcount, hcount.trans_le hbound, hkeys1, rfl, setStatus_keys _ _ _,
         rfl, setStatus_keys _ _ _, rfl, clean_keys slot4 pool4⟩)

/-- C10 witness: on the E1 request, its fulfillment, its cancellation and
the E2 sweep, the pool admits exactly one entry (bounded by `max_size`) and
no operation removes an entry or decrements `request_count`. -/
theorem C10_pool_monotone_witness :
    e1out.pool.request_count = 1 ∧
    e1out.pool.request_count ≤ e1pool.max_size ∧
    e1out.pool.requests.map Prod.fst = [0] ∧
    e2out.pool.request_count = 1 ∧
    e2out.pool.requests.map Prod.fst = [0] ∧
    e3out.pool.request_count = 1 ∧
    (clean_expired_requests 20000 pool8).2.request_count = 3 := by
  have h := C10_pool_monotone Hzero e1seed e1cbd 1 1 100000 1 e1rq e1sk 1000 111
    e1sub e1pool e1out (by decide) (by decide) (by rfl)
    (List.replicate 80 3) (List.replicate 32 0) 1 0 e1sk 1001 e1req e1outpool
    e1outsub e2out (by rfl)
    e1rq (List.replicate 32 0) 1 0 e1req e1outpool e1outsub e3out (by rfl)
    20000 pool8
  exact ⟨h.1.trans (by decide), h.2.1, h.2.2.1.trans (by decide),
    h.2.2.2.1.trans (by decide), h.2.2.2.2.1.trans (by decide),
    h.2.2.2.2.2.1.trans (by decide), h.2.2.2.2.2.2.2.1.trans (by decide)⟩
